import Mathlib

/-!
Shallow embedding of the `udplite` crate (src/udplite.rs) in Lean 4,
together with theorems settling the behavioural claims about it.

The crate wraps a UDP-Lite socket.  Its core logic is:

* `rust_addr_to_sockaddr` — encode a Rust `SocketAddr` into an OS
  `sockaddr_storage` plus a length;
* `try_bind` — create a datagram socket (`socket(family, SOCK_DGRAM |
  SOCK_CLOEXEC, IPPROTO_UDPLITE)`) and bind it, retrying `bind` while the
  error kind is `Interrupted`;
* `UdpLiteSocket::bind` — resolve an address spec to a candidate list and
  try each candidate in order;
* the checksum-coverage codec: setters encode `None ↦ 0`,
  `Some(n) ↦ n + 8` into a C `int`; getters decode the value returned by
  `getsockopt`;
* `set_cloexec` — toggle close-on-exec through `ioctl(FIOCLEX/FIONCLEX)`.

OS calls are modelled by explicit oracles (a function argument giving the
return value and `errno`-derived error of each call), and descriptor state
by an explicit record, so every library function becomes a pure Lean
function of its inputs and the oracle.  Machine integers are modelled as
`Int`/`Nat` (a Rust `c_int` is at least 32 bits; every arithmetic operation
performed by the crate on coverage values stays far below `2^31`, which is
proved where relevant rather than assumed).
-/

namespace UdpLite

/-! ### Platform constants

Numeric constants used by the crate, at their Linux values (the crate
selects between the Linux and FreeBSD values of `UDPLITE_*_CSCOV` and
`IPPROTO_UDPLITE` at build time; the claims under study do not depend on
which pair is chosen). -/

def AF_INET : Nat := 2

def AF_INET6 : Nat := 10

def SOCK_DGRAM : Nat := 2

def SOCK_CLOEXEC : Nat := 524288

def IPPROTO_UDPLITE : Nat := 136

def UDPLITE_SEND_CSCOV : Nat := 10

def UDPLITE_RECV_CSCOV : Nat := 11

/-- `mem::size_of::<sockaddr_in>()` on the supported platforms. -/
def sizeof_sockaddr_in : Nat := 16

/-- `mem::size_of::<sockaddr_in6>()` on the supported platforms. -/
def sizeof_sockaddr_in6 : Nat := 28

/-! ### `std::io::Error` model

The crate inspects an error only through its `kind()`; errors made with
`io::Error::new(kind, msg)` also carry their message.  OS errors
(`io::Error::last_os_error()`) are supplied by the oracle. -/

inductive ErrorKind : Type
  | interrupted
  | invalidInput
  | invalidData
  | wouldBlock
  | other
deriving DecidableEq, Inhabited

structure IoError : Type where
  kind : ErrorKind
  msg : String
deriving DecidableEq, Inhabited

/-! ### Address model (`std::net`) -/

/-- `std::net::SocketAddrV4`: an IPv4 address as four octets plus a 16-bit
port.  Well-formedness (octets < 256, port < 2^16) is imposed by
hypotheses where a theorem needs it. -/
structure SocketAddrV4 : Type where
  a : Nat
  b : Nat
  c : Nat
  d : Nat
  port : Nat
deriving DecidableEq

/-- `std::net::SocketAddrV6`: sixteen octets, port, flow-info, scope-id. -/
structure SocketAddrV6 : Type where
  octets : List Nat
  port : Nat
  flowinfo : Nat
  scope_id : Nat
deriving DecidableEq

inductive SocketAddr : Type
  | V4 : SocketAddrV4 → SocketAddr
  | V6 : SocketAddrV6 → SocketAddr
deriving DecidableEq

/-- `u32::from(ipv4_addr)`: the octets composed big-endian into one
number. -/
def u32_from_ipv4 (v4 : SocketAddrV4) : Nat :=
  v4.a * 16777216 + v4.b * 65536 + v4.c * 256 + v4.d

/-- The in-memory byte sequence of a `u16` after `.to_be()`: network byte
order, most significant byte first. -/
def be16 (x : Nat) : List Nat := [x / 256 % 256, x % 256]

/-- The in-memory byte sequence of a `u32` after `.to_be()`. -/
def be32 (x : Nat) : List Nat :=
  [x / 16777216 % 256, x / 65536 % 256, x / 256 % 256, x % 256]

/-! ### `sockaddr` structures

The OS address structures are modelled field-for-field; multi-byte fields
that the crate stores in network byte order are modelled as their byte
sequences. -/

structure sockaddr_in : Type where
  sin_family : Nat
  sin_port : List Nat
  sin_addr : List Nat
deriving DecidableEq

structure sockaddr_in6 : Type where
  sin6_family : Nat
  sin6_port : List Nat
  sin6_flowinfo : Nat
  sin6_addr : List Nat
  sin6_scope_id : Nat
deriving DecidableEq

/-- `sockaddr_storage` after the crate has filled it in: it always holds
either a complete `sockaddr_in` or a complete `sockaddr_in6`. -/
inductive sockaddr_storage : Type
  | in4 : sockaddr_in → sockaddr_storage
  | in6 : sockaddr_in6 → sockaddr_storage
deriving DecidableEq

/-- The `ss_family` discriminant read back from the storage
(`storage.ss_family as c_int` in `try_bind`). -/
def ss_family : sockaddr_storage → Nat
  | sockaddr_storage.in4 s => s.sin_family
  | sockaddr_storage.in6 s => s.sin6_family

/-- Embeds `rust_addr_to_sockaddr` (src/udplite.rs lines 150-175): fill a
`sockaddr_storage` from a Rust address and return the filled storage with
the length passed to the OS.  The source writes
`sin_addr.s_addr = u32::from(*ip).to_be()` and `sin_port = port.to_be()`;
here the stored value of a field written with `.to_be()` is its big-endian
byte sequence. -/
def rust_addr_to_sockaddr : SocketAddr → sockaddr_storage × Nat
  | SocketAddr.V4 addrv4 =>
      (sockaddr_storage.in4
        { sin_family := AF_INET
          sin_port := be16 addrv4.port
          sin_addr := be32 (u32_from_ipv4 addrv4) },
       sizeof_sockaddr_in)
  | SocketAddr.V6 addrv6 =>
      (sockaddr_storage.in6
        { sin6_family := AF_INET6
          sin6_port := be16 addrv6.port
          sin6_flowinfo := addrv6.flowinfo
          sin6_addr := addrv6.octets
          sin6_scope_id := addrv6.scope_id },
       sizeof_sockaddr_in6)

/-! ### Socket model and the `try_bind` factory -/

/-- The state this layer tracks for one socket: its file descriptor and
whether non-blocking mode has been enabled (freshly created sockets are
blocking). -/
structure ModelSocket : Type where
  fd : Int
  nonblocking : Bool
deriving DecidableEq

/-- The argument triple of one `socket(2)` call. -/
structure SocketCall : Type where
  domain : Nat
  typ : Nat
  protocol : Nat
deriving DecidableEq

/-- The `socket(2)` call `try_bind` performs for an address: domain from
the encoded storage's family tag, type `SOCK_DGRAM | SOCK_CLOEXEC`,
protocol `IPPROTO_UDPLITE` (src/udplite.rs line 183). -/
def socketCallOf (addr : SocketAddr) : SocketCall :=
  { domain := ss_family (rust_addr_to_sockaddr addr).1
    typ := SOCK_DGRAM ||| SOCK_CLOEXEC
    protocol := IPPROTO_UDPLITE }

/-- The `bind(2)` retry loop of `try_bind` (src/udplite.rs lines 190-199),
driven by the oracle's list of successive `bind` outcomes, each a return
value paired with the `io::Error` for `errno` should the return value be
`-1`.  The loop leaves only on a non-`Interrupted` failure or on success;
`none` means the modelled outcome list was exhausted with the loop still
running (an unbounded run of `Interrupted` failures). -/
def bindRetryLoop : List (Int × IoError) → Option (Except IoError Unit)
  | [] => none
  | (ret, err) :: rest =>
      if ret = -1 then
        if err.kind ≠ ErrorKind.interrupted then some (Except.error err)
        else bindRetryLoop rest
      else some (Except.ok ())

/-- Embeds `try_bind` (src/udplite.rs lines 177-201).  `socketSys` is the
oracle for `socket(2)`: given the call arguments it yields the return
value and the `io::Error` for `errno` should the return value be `-1`;
`bindSys` lists the successive outcomes of the `bind(2)` calls.  The
result is `none` when the retry loop never exits within the modelled
outcome list. -/
def try_bind (socketSys : SocketCall → Int × IoError)
    (bindSys : List (Int × IoError)) (addr : SocketAddr) :
    Option (Except IoError ModelSocket) :=
  let storage := (rust_addr_to_sockaddr addr).1
  let addr_type := ss_family storage
  let sres := socketSys
    { domain := addr_type
      typ := SOCK_DGRAM ||| SOCK_CLOEXEC
      protocol := IPPROTO_UDPLITE }
  if sres.1 = -1 then some (Except.error sres.2)
  else
    match bindRetryLoop bindSys with
    | none => none
    | some (Except.error e) => some (Except.error e)
    | some (Except.ok _) => some (Except.ok { fd := sres.1, nonblocking := false })

/-! ### `UdpLiteSocket::bind`: the candidate-address loop

The source resolves the address spec, then runs
`for addr in addrs { match try_bind(&addr) { Err(e) => error = e, ok => return ok } }`
starting from the distinguished invalid-input error.  The loop is embedded
with the mutable `error` variable as an accumulator, generic in the
per-candidate function (`try_bind` in the source). -/

def no_addresses_error : IoError :=
  { kind := ErrorKind.invalidInput, msg := "could not resolve to any addresses" }

namespace UdpLiteSocket

/-- The `for addr in addrs` loop of `UdpLiteSocket::bind`
(src/udplite.rs lines 211-217): try each candidate in order, returning the
first success; remember each failure, and when the list is exhausted
return the last remembered error. -/
def bind_loop {A S : Type} (tryB : A → Except IoError S) :
    List A → IoError → Except IoError S
  | [], error => Except.error error
  | addr :: rest, error =>
      match tryB addr with
      | Except.error e => bind_loop tryB rest e
      | Except.ok s =>
          let _ := error
          Except.ok s

/-- Embeds `UdpLiteSocket::bind` (src/udplite.rs lines 205-218), generic in
the resolver outcome (`resolved`, the result of `to_socket_addrs()`) and
the per-candidate function (`tryB`, which the source instantiates with
`try_bind`). -/
def bind {A S : Type} (resolved : Except IoError (List A))
    (tryB : A → Except IoError S) : Except IoError S :=
  match resolved with
  | Except.error error => Except.error error
  | Except.ok addrs => bind_loop tryB addrs no_addresses_error

/-- Modelled from the spec: `bind_nonblocking` is called by the crate's
tests but its definition is not under src/ (only `bind` is).  Following
spec §4.3, it performs the same resolution and per-candidate iteration as
`bind`, additionally marking the created socket non-blocking immediately
after the bind step, without changing bind's own success/failure
semantics. -/
def bind_nonblocking {A : Type} (resolved : Except IoError (List A))
    (tryB : A → Except IoError ModelSocket) : Except IoError ModelSocket :=
  bind resolved (fun addr =>
    match tryB addr with
    | Except.ok s => Except.ok { s with nonblocking := true }
    | Except.error e => Except.error e)

/-! ### Checksum-coverage codec -/

/-- The wire encoding computed by both coverage setters
(src/udplite.rs lines 245-248 and 305-308):
`Some(payload) ↦ payload as c_int + 8`, `None ↦ 0`.  A `u16` payload
converts to `c_int` exactly, and `+ 8` cannot overflow a 32-bit `c_int`. -/
def coverage_to_wire (coverage : Option Nat) : Int :=
  match coverage with
  | some payload => (payload : Int) + 8
  | none => 0

/-- Embeds `set_send_checksum_coverage` (src/udplite.rs lines 243-262).
`setsockoptSys` is the oracle for `setsockopt(2)`: given the option name
and the `c_int` option value it yields the return value and the
`io::Error` for `errno` should the return value be `-1`. -/
def set_send_checksum_coverage (coverage : Option Nat)
    (setsockoptSys : Nat → Int → Int × IoError) : Except IoError Unit :=
  let wire := coverage_to_wire coverage
  let r := setsockoptSys UDPLITE_SEND_CSCOV wire
  if r.1 = -1 then Except.error r.2 else Except.ok ()

/-- Embeds `set_recv_checksum_coverage_filter`
(src/udplite.rs lines 303-322); identical to the send setter apart from
the option name. -/
def set_recv_checksum_coverage_filter (coverage : Option Nat)
    (setsockoptSys : Nat → Int → Int × IoError) : Except IoError Unit :=
  let wire := coverage_to_wire coverage
  let r := setsockoptSys UDPLITE_RECV_CSCOV wire
  if r.1 = -1 then Except.error r.2 else Except.ok ()

/-- Embeds the result handling of `send_checksum_coverage`
(src/udplite.rs lines 281-288): `ret` is the `getsockopt` return value,
`coverage` the `c_int` it stored, `osError` the `io::Error` for `errno`.
The source matches, in order: `(0, 0)`, `(0, 8..=0xffff)` (returning
`coverage as u16 - 8`), `(0, 1..=7)`, `(0, _)`, `(-1, _)`, `(_, _)`. -/
def send_checksum_coverage (ret : Int) (coverage : Int) (osError : IoError) :
    Except IoError (Option Nat) :=
  if ret = 0 then
    if coverage = 0 then Except.ok none
    else if 8 ≤ coverage ∧ coverage ≤ 0xffff then
      Except.ok (some (coverage.toNat - 8))
    else if 1 ≤ coverage ∧ coverage ≤ 7 then
      Except.error
        ⟨ErrorKind.invalidData, "Returned coverage only partially covers header"⟩
    else
      Except.error
        ⟨ErrorKind.invalidData, "Returned coverage is outside of valid range (for IPv6)"⟩
  else if ret = -1 then Except.error osError
  else Except.error ⟨ErrorKind.invalidData, "Unexpected return value from getsockopt()"⟩

/-- Embeds the result handling of `recv_checksum_coverage_filter`
(src/udplite.rs lines 344-350).  The source matches, in order: `(0, 0)`,
`(0, 8..=0xffff)`, `(0, _)`, `(-1, _)`, `(_, _)` — unlike the send-side
getter it has no `(0, 1..=7)` arm. -/
def recv_checksum_coverage_filter (ret : Int) (coverage : Int)
    (osError : IoError) : Except IoError (Option Nat) :=
  if ret = 0 then
    if coverage = 0 then Except.ok none
    else if 8 ≤ coverage ∧ coverage ≤ 0xffff then
      Except.ok (some (coverage.toNat - 8))
    else
      Except.error
        ⟨ErrorKind.invalidData, "Returned coverage is outside of valid range"⟩
  else if ret = -1 then Except.error osError
  else Except.error ⟨ErrorKind.invalidData, "Unexpected return value from getsockopt()"⟩

/-! ### Close-on-exec toggling -/

end UdpLiteSocket

/-- State of one file descriptor as far as `set_cloexec` is concerned:
whether the descriptor is open at all, and its close-on-exec flag. -/
structure FdState : Type where
  valid : Bool
  cloexec : Bool
deriving DecidableEq

/-- The two `ioctl` operations used by `set_cloexec`. -/
inductive CloexecOp : Type
  | fioclex
  | fionclex
deriving DecidableEq

/-- The OS semantics of `ioctl(fd, FIOCLEX)` / `ioctl(fd, FIONCLEX)` on the
supported platforms: on a valid descriptor, set respectively clear the
close-on-exec flag and return `0`; on an invalid descriptor, return `-1`
leaving nothing changed. -/
def ioctlSys (st : FdState) (op : CloexecOp) : Int × FdState :=
  if st.valid then
    (0, { st with cloexec := match op with
                             | CloexecOp.fioclex => true
                             | CloexecOp.fionclex => false })
  else (-1, st)

namespace UdpLiteSocket

/-- Embeds `set_cloexec` (src/udplite.rs lines 360-368): pick `FIOCLEX` or
`FIONCLEX` from the flag, call `ioctl`, and map return value `-1` to the
OS error (supplied as `osError`) and anything else to `Ok(())`.  Returns
the call's result together with the descriptor state afterwards. -/
def set_cloexec (st : FdState) (close_on_exec : Bool) (osError : IoError) :
    Except IoError Unit × FdState :=
  let op := if close_on_exec then CloexecOp.fioclex else CloexecOp.fionclex
  let r := ioctlSys st op
  (if r.1 = -1 then Except.error osError else Except.ok (), r.2)

end UdpLiteSocket

end UdpLite

namespace UdpLite

open UdpLiteSocket

/-! ## Theorems settling the claims -/

/-- Claim C1: for every `n ≤ 0xFFF7`, encoding the coverage `Some n` (wire
value `n + 8`) and decoding that wire value with the send-coverage
getter's decode logic yields exactly `Some n`; encoding `None` yields wire
value `0`, which decodes back to exactly `None`; and the same round-trip
holds for the receive-filter setter/getter pair, including `n = 0xFFF7`. -/
theorem coverage_roundtrip (n : Nat) (h : n ≤ 0xfff7) (e : IoError) :
    coverage_to_wire (some n) = (n : Int) + 8
  ∧ send_checksum_coverage 0 (coverage_to_wire (some n)) e = Except.ok (some n)
  ∧ recv_checksum_coverage_filter 0 (coverage_to_wire (some n)) e = Except.ok (some n)
  ∧ coverage_to_wire none = 0
  ∧ send_checksum_coverage 0 (coverage_to_wire none) e = Except.ok none
  ∧ recv_checksum_coverage_filter 0 (coverage_to_wire none) e = Except.ok none := by
  have hw : coverage_to_wire (some n) = (n : Int) + 8 := rfl
  have hne : ¬((n : Int) + 8 = 0) := by omega
  have hrange : 8 ≤ (n : Int) + 8 ∧ (n : Int) + 8 ≤ 0xffff := by
    constructor <;> omega
  have htn : ((n : Int) + 8).toNat - 8 = n := by omega
  refine ⟨hw, ?_, ?_, rfl, rfl, rfl⟩
  · rw [hw]
    unfold send_checksum_coverage
    rw [if_pos rfl, if_neg hne, if_pos hrange, htn]
  · rw [hw]
    unfold recv_checksum_coverage_filter
    rw [if_pos rfl, if_neg hne, if_pos hrange, htn]

/-- Witness for `coverage_roundtrip` at the boundary `n = 0xFFF7`. -/
theorem coverage_roundtrip_witness :
    coverage_to_wire (some 0xfff7) = (0xfff7 : Int) + 8
  ∧ send_checksum_coverage 0 (coverage_to_wire (some 0xfff7)) ⟨ErrorKind.other, "e"⟩
      = Except.ok (some 0xfff7)
  ∧ recv_checksum_coverage_filter 0 (coverage_to_wire (some 0xfff7)) ⟨ErrorKind.other, "e"⟩
      = Except.ok (some 0xfff7)
  ∧ coverage_to_wire none = 0
  ∧ send_checksum_coverage 0 (coverage_to_wire none) ⟨ErrorKind.other, "e"⟩
      = Except.ok none
  ∧ recv_checksum_coverage_filter 0 (coverage_to_wire none) ⟨ErrorKind.other, "e"⟩
      = Except.ok none :=
  coverage_roundtrip 0xfff7 (by decide) ⟨ErrorKind.other, "e"⟩

/-- Claim C2 counterexample: on wire value `3` (strictly between `0` and
`8`) the receive-filter getter does NOT produce the distinct
partial-header-coverage failure; it produces the generic
outside-valid-range failure, and so decodes differently from the
send-side getter. -/
theorem recv_decode_not_identical_counterexample :
    recv_checksum_coverage_filter 0 3 ⟨ErrorKind.other, "os"⟩
      = Except.error ⟨ErrorKind.invalidData, "Returned coverage is outside of valid range"⟩
  ∧ send_checksum_coverage 0 3 ⟨ErrorKind.other, "os"⟩
      = Except.error ⟨ErrorKind.invalidData, "Returned coverage only partially covers header"⟩
  ∧ recv_checksum_coverage_filter 0 3 ⟨ErrorKind.other, "os"⟩
      ≠ send_checksum_coverage 0 3 ⟨ErrorKind.other, "os"⟩ := by
  refine ⟨?_, ?_, ?_⟩
  · simp [recv_checksum_coverage_filter]
  · simp [send_checksum_coverage]
  · intro hcontra
    have h2 : Except.error (α := Option Nat)
        (⟨ErrorKind.invalidData, "Returned coverage is outside of valid range"⟩ : IoError)
        = Except.error
            (⟨ErrorKind.invalidData, "Returned coverage only partially covers header"⟩ : IoError) :=
      hcontra
    injection h2 with h3
    injection h3 with h4 h5
    exact absurd h5 (by decide)

/-- Claim C2 (amended): the receive-filter getter decodes a returned wire
value `0` to `None` and a wire value in `[8, 0xFFFF]` to
`Some (value - 8)` exactly like the send-side getter, but every other
successfully returned value — including the values strictly between `0`
and `8` — produces the single decode failure "coverage outside valid
range"; only the send-side getter distinguishes the
partial-header-coverage case. -/
theorem recv_decode_characterization (c : Int) (e : IoError) :
    (c = 0 → recv_checksum_coverage_filter 0 c e = Except.ok none
      ∧ recv_checksum_coverage_filter 0 c e = send_checksum_coverage 0 c e)
  ∧ (8 ≤ c → c ≤ 0xffff →
      recv_checksum_coverage_filter 0 c e = Except.ok (some (c.toNat - 8))
      ∧ recv_checksum_coverage_filter 0 c e = send_checksum_coverage 0 c e)
  ∧ (c ≠ 0 → ¬(8 ≤ c ∧ c ≤ 0xffff) →
      recv_checksum_coverage_filter 0 c e
        = Except.error ⟨ErrorKind.invalidData, "Returned coverage is outside of valid range"⟩) := by
  refine ⟨?_, ?_, ?_⟩
  · rintro rfl
    constructor <;> rfl
  · intro h8 hff
    have hne : ¬(c = 0) := by omega
    have hr : 8 ≤ c ∧ c ≤ 0xffff := ⟨h8, hff⟩
    unfold recv_checksum_coverage_filter send_checksum_coverage
    rw [if_pos rfl, if_neg hne, if_pos hr, if_pos rfl, if_neg hne, if_pos hr]
    exact ⟨rfl, rfl⟩
  · intro hne hnr
    unfold recv_checksum_coverage_filter
    rw [if_pos rfl, if_neg hne, if_neg hnr]

/-- Witness for `recv_decode_characterization` at the wire values `0`,
`100` and `3`. -/
theorem recv_decode_characterization_witness :
    (recv_checksum_coverage_filter 0 0 ⟨ErrorKind.other, "os"⟩ = Except.ok none
      ∧ recv_checksum_coverage_filter 0 0 ⟨ErrorKind.other, "os"⟩
          = send_checksum_coverage 0 0 ⟨ErrorKind.other, "os"⟩)
  ∧ (recv_checksum_coverage_filter 0 100 ⟨ErrorKind.other, "os"⟩
        = Except.ok (some ((100 : Int).toNat - 8))
      ∧ recv_checksum_coverage_filter 0 100 ⟨ErrorKind.other, "os"⟩
          = send_checksum_coverage 0 100 ⟨ErrorKind.other, "os"⟩)
  ∧ recv_checksum_coverage_filter 0 3 ⟨ErrorKind.other, "os"⟩
      = Except.error ⟨ErrorKind.invalidData, "Returned coverage is outside of valid range"⟩ :=
  ⟨(recv_decode_characterization 0 ⟨ErrorKind.other, "os"⟩).1 rfl,
   (recv_decode_characterization 100 ⟨ErrorKind.other, "os"⟩).2.1 (by decide) (by decide),
   (recv_decode_characterization 3 ⟨ErrorKind.other, "os"⟩).2.2 (by decide) (by decide)⟩

/-- Claim C10: the coverage setters perform no range validation: for every
`u16` value `n` the computed wire value is exactly `n + 8`, nonnegative
and far below `2^31` (no `c_int` overflow), exceeds `0xFFFF` whenever
`n > 0xFFF7`, and is passed to the OS unchecked — each setter's result is
exactly the OS call's verdict on that wire value, so the encoder itself
never fails before the OS call. -/
theorem coverage_setters_unvalidated (n : Nat) (h : n < 65536) :
    coverage_to_wire (some n) = (n : Int) + 8
  ∧ 0 ≤ coverage_to_wire (some n)
  ∧ coverage_to_wire (some n) < 2 ^ 31
  ∧ (0xfff7 < n → 0xffff < coverage_to_wire (some n))
  ∧ (∀ setsockoptSys : Nat → Int → Int × IoError,
      set_send_checksum_coverage (some n) setsockoptSys
        = if (setsockoptSys UDPLITE_SEND_CSCOV ((n : Int) + 8)).1 = -1
          then Except.error (setsockoptSys UDPLITE_SEND_CSCOV ((n : Int) + 8)).2
          else Except.ok ())
  ∧ (∀ setsockoptSys : Nat → Int → Int × IoError,
      set_recv_checksum_coverage_filter (some n) setsockoptSys
        = if (setsockoptSys UDPLITE_RECV_CSCOV ((n : Int) + 8)).1 = -1
          then Except.error (setsockoptSys UDPLITE_RECV_CSCOV ((n : Int) + 8)).2
          else Except.ok ()) := by
  have hw : coverage_to_wire (some n) = (n : Int) + 8 := rfl
  refine ⟨hw, ?_, ?_, ?_, fun s => rfl, fun s => rfl⟩
  · rw [hw]; omega
  · rw [hw]; omega
  · intro hg; rw [hw]; omega

/-- Witness for `coverage_setters_unvalidated` at `n = 0xFFF8`, just above
the greatest exactly-representable coverage, with an OS oracle that
accepts everything. -/
theorem coverage_setters_unvalidated_witness :
    coverage_to_wire (some 0xfff8) = (0xfff8 : Int) + 8
  ∧ 0 ≤ coverage_to_wire (some 0xfff8)
  ∧ coverage_to_wire (some 0xfff8) < 2 ^ 31
  ∧ (0xfff7 < 0xfff8 → 0xffff < coverage_to_wire (some 0xfff8))
  ∧ (∀ setsockoptSys : Nat → Int → Int × IoError,
      set_send_checksum_coverage (some 0xfff8) setsockoptSys
        = if (setsockoptSys UDPLITE_SEND_CSCOV ((0xfff8 : Int) + 8)).1 = -1
          then Except.error (setsockoptSys UDPLITE_SEND_CSCOV ((0xfff8 : Int) + 8)).2
          else Except.ok ())
  ∧ (∀ setsockoptSys : Nat → Int → Int × IoError,
      set_recv_checksum_coverage_filter (some 0xfff8) setsockoptSys
        = if (setsockoptSys UDPLITE_RECV_CSCOV ((0xfff8 : Int) + 8)).1 = -1
          then Except.error (setsockoptSys UDPLITE_RECV_CSCOV ((0xfff8 : Int) + 8)).2
          else Except.ok ()) :=
  coverage_setters_unvalidated 0xfff8 (by decide)

/-- Claim C4: when resolution yields an empty candidate sequence, `bind`
returns the distinguished invalid-input error, whichever per-candidate
function is supplied (so no creation attempt can influence the result);
a resolution failure is propagated unchanged. -/
theorem bind_empty_and_resolution_failure (A S : Type)
    (tryB : A → Except IoError S) (e : IoError) :
    UdpLiteSocket.bind (Except.ok ([] : List A)) tryB
      = Except.error no_addresses_error
  ∧ no_addresses_error.kind = ErrorKind.invalidInput
  ∧ UdpLiteSocket.bind (Except.error e) tryB = Except.error e :=
  ⟨rfl, rfl, rfl⟩

/-- Helper for claim C5: when every candidate in a prefix fails and the
next candidate succeeds, the candidate loop returns that first success
whatever comes afterwards and whatever error is remembered so far. -/
theorem bind_loop_first_success {A S : Type} (tryB : A → Except IoError S)
    (f : A → IoError) (pre : List A) :
    ∀ (post : List A) (a : A) (s : S) (err : IoError),
      (∀ x ∈ pre, tryB x = Except.error (f x)) → tryB a = Except.ok s →
      UdpLiteSocket.bind_loop tryB (pre ++ a :: post) err = Except.ok s := by
  induction pre with
  | nil =>
      intro post a s err _ ha
      simp [UdpLiteSocket.bind_loop, ha]
  | cons y ys ih =>
      intro post a s err hpre ha
      have hy : tryB y = Except.error (f y) := hpre y (List.mem_cons_self y ys)
      simp only [List.cons_append, UdpLiteSocket.bind_loop, hy]
      exact ih post a s (f y) (fun x hx => hpre x (List.mem_cons_of_mem y hx)) ha

/-- Helper for claim C5: when every candidate fails, the candidate loop
returns the error of the last candidate. -/
theorem bind_loop_all_fail {A S : Type} (tryB : A → Except IoError S)
    (f : A → IoError) (addrs : List A) :
    ∀ (h : addrs ≠ []) (err : IoError),
      (∀ x ∈ addrs, tryB x = Except.error (f x)) →
      UdpLiteSocket.bind_loop tryB addrs err = Except.error (f (addrs.getLast h)) := by
  induction addrs with
  | nil => intro h; exact absurd rfl h
  | cons a rest ih =>
      intro h err hall
      have ha : tryB a = Except.error (f a) := hall a (List.mem_cons_self a rest)
      cases rest with
      | nil => simp [UdpLiteSocket.bind_loop, ha, List.getLast]
      | cons b rest2 =>
          have hne : b :: rest2 ≠ [] := List.cons_ne_nil b rest2
          rw [List.getLast_cons hne]
          simp only [UdpLiteSocket.bind_loop, ha]
          exact ih hne (f a) (fun x hx => hall x (List.mem_cons_of_mem a hx))

/-- Claim C5: over a non-empty resolved candidate sequence, `bind` tries
the candidates in order and returns the first success — the result does
not depend on the candidates after that one — and, when every candidate
fails, it returns exactly the error observed for the last candidate. -/
theorem bind_candidate_order (A S : Type) (tryB : A → Except IoError S)
    (f : A → IoError) :
    (∀ (pre post : List A) (a : A) (s : S),
      (∀ x ∈ pre, tryB x = Except.error (f x)) → tryB a = Except.ok s →
      UdpLiteSocket.bind (Except.ok (pre ++ a :: post)) tryB = Except.ok s)
  ∧ (∀ (addrs : List A) (h : addrs ≠ []),
      (∀ x ∈ addrs, tryB x = Except.error (f x)) →
      UdpLiteSocket.bind (Except.ok addrs) tryB
        = Except.error (f (addrs.getLast h))) :=
  ⟨fun pre post a s hpre ha =>
     bind_loop_first_success tryB f pre post a s no_addresses_error hpre ha,
   fun addrs h hall => bind_loop_all_fail tryB f addrs h no_addresses_error hall⟩

/-- Witness for `bind_candidate_order`: with candidates `[0, 1, 9]` where
`0` fails, `1` succeeds with socket `7` and `9` is never reached, `bind`
returns socket `7`; with candidates `[3, 4]` all failing, it returns the
error of candidate `4`. -/
theorem bind_candidate_order_witness :
    UdpLiteSocket.bind (Except.ok ([0, 1, 9] : List Nat))
      (fun x => if x = 1 then Except.ok (7 : Nat)
                else Except.error ⟨ErrorKind.other, "fail"⟩)
      = Except.ok 7
  ∧ UdpLiteSocket.bind (Except.ok ([3, 4] : List Nat))
      (fun x => (Except.error ⟨ErrorKind.other, (Nat.repr x)⟩ : Except IoError Nat))
      = Except.error ⟨ErrorKind.other, (Nat.repr 4)⟩ := by
  constructor
  · have h := (bind_candidate_order Nat Nat
      (fun x => if x = 1 then Except.ok (7 : Nat)
                else Except.error ⟨ErrorKind.other, "fail"⟩)
      (fun _ => ⟨ErrorKind.other, "fail"⟩)).1
      [0] [9] 1 7 ?_ rfl
    · exact h
    · intro x hx
      have hx0 : x = 0 := List.mem_singleton.mp hx
      subst hx0
      rfl
  · have h := (bind_candidate_order Nat Nat
      (fun x => (Except.error ⟨ErrorKind.other, (Nat.repr x)⟩ : Except IoError Nat))
      (fun x => ⟨ErrorKind.other, (Nat.repr x)⟩)).2
      [3, 4] (List.cons_ne_nil 3 [4]) (fun x _ => rfl)
    exact h

/-- Helper for claim C3: the candidate loop run with the per-candidate
function wrapped to mark successes non-blocking produces the plain loop's
outcome with a successful socket marked non-blocking. -/
theorem bind_loop_nonblocking_map {A : Type}
    (tryB : A → Except IoError ModelSocket) (addrs : List A) :
    ∀ err, UdpLiteSocket.bind_loop
        (fun addr => match tryB addr with
          | Except.ok s => Except.ok { s with nonblocking := true }
          | Except.error e => Except.error e) addrs err
      = Except.map (fun s => { s with nonblocking := true })
          (UdpLiteSocket.bind_loop tryB addrs err) := by
  induction addrs with
  | nil => intro err; rfl
  | cons a rest ih =>
      intro err
      cases ha : tryB a with
      | ok s => simp [UdpLiteSocket.bind_loop, ha, Except.map]
      | error e =>
          simp only [UdpLiteSocket.bind_loop, ha]
          exact ih e

/-- Claim C3 (the variant is modelled from the spec, see
`UdpLiteSocket.bind_nonblocking`): `bind_nonblocking` performs the same
resolution and per-candidate iteration as `bind` — its outcome is exactly
`bind`'s outcome with the successful socket, when there is one, marked
non-blocking — so bind's own success/failure semantics are unchanged. -/
theorem bind_nonblocking_same_semantics (A : Type)
    (resolved : Except IoError (List A))
    (tryB : A → Except IoError ModelSocket) :
    UdpLiteSocket.bind_nonblocking resolved tryB
      = Except.map (fun s => { s with nonblocking := true })
          (UdpLiteSocket.bind resolved tryB) := by
  cases resolved with
  | error e => rfl
  | ok addrs => exact bind_loop_nonblocking_map tryB addrs no_addresses_error

/-- Claim C6: in `try_bind`, a socket-creation failure is returned
immediately as the OS-reported error (whatever the bind outcomes would
have been); a bind failure of kind `Interrupted` makes the loop retry the
bind call, any other bind failure terminates the loop and is returned;
and the loop never surfaces an `Interrupted` error. -/
theorem try_bind_error_semantics :
    (∀ (socketSys : SocketCall → Int × IoError) (bindSys : List (Int × IoError))
       (addr : SocketAddr),
       (socketSys (socketCallOf addr)).1 = -1 →
       try_bind socketSys bindSys addr
         = some (Except.error (socketSys (socketCallOf addr)).2))
  ∧ (∀ (rest : List (Int × IoError)) (err : IoError),
       err.kind = ErrorKind.interrupted →
       bindRetryLoop ((-1, err) :: rest) = bindRetryLoop rest)
  ∧ (∀ (rest : List (Int × IoError)) (err : IoError),
       err.kind ≠ ErrorKind.interrupted →
       bindRetryLoop ((-1, err) :: rest) = some (Except.error err))
  ∧ (∀ (bindSys : List (Int × IoError)) (e : IoError),
       bindRetryLoop bindSys = some (Except.error e) →
       e.kind ≠ ErrorKind.interrupted) := by
  refine ⟨?_, ?_, ?_, ?_⟩
  · intro socketSys bindSys addr h
    simp only [socketCallOf] at h
    simp only [try_bind, socketCallOf]
    rw [if_pos h]
  · intro rest err h
    simp [bindRetryLoop, h]
  · intro rest err h
    simp [bindRetryLoop, h]
  · intro bindSys
    induction bindSys with
    | nil => intro e h; simp [bindRetryLoop] at h
    | cons p rest ih =>
        intro e h
        obtain ⟨ret, err⟩ := p
        by_cases hr : ret = -1
        · by_cases hk : err.kind = ErrorKind.interrupted
          · rw [show bindRetryLoop ((ret, err) :: rest) = bindRetryLoop rest from
                by simp [bindRetryLoop, hr, hk]] at h
            exact ih e h
          · rw [show bindRetryLoop ((ret, err) :: rest) = some (Except.error err) from
                by simp [bindRetryLoop, hr, hk]] at h
            injection h with h1
            injection h1 with h2
            rw [← h2]
            exact hk
        · simp [bindRetryLoop, hr] at h

/-- Witness for `try_bind_error_semantics`: a failing `socket(2)` call is
surfaced at once, and a bind sequence of one `Interrupted` failure then a
permission failure ends with the permission failure, whose kind is not
`Interrupted`. -/
theorem try_bind_error_semantics_witness :
    try_bind (fun _ => (-1, ⟨ErrorKind.other, "creation"⟩)) []
        (SocketAddr.V4 ⟨127, 0, 0, 1, 0⟩)
      = some (Except.error ⟨ErrorKind.other, "creation"⟩)
  ∧ bindRetryLoop [((-1 : Int), ⟨ErrorKind.interrupted, "intr"⟩),
                   ((-1 : Int), ⟨ErrorKind.other, "denied"⟩)]
      = some (Except.error ⟨ErrorKind.other, "denied"⟩)
  ∧ (⟨ErrorKind.other, "denied"⟩ : IoError).kind ≠ ErrorKind.interrupted := by
  refine ⟨?_, ?_, ?_⟩
  · exact try_bind_error_semantics.1 _ [] _ rfl
  · rw [try_bind_error_semantics.2.1 _ _ rfl]
    exact try_bind_error_semantics.2.2.1 [] _ (by decide)
  · exact try_bind_error_semantics.2.2.2 [((-1 : Int), ⟨ErrorKind.other, "denied"⟩)] _
      (try_bind_error_semantics.2.2.1 [] _ (by decide))

/-- Claim C7: the `socket(2)` call made by `try_bind` uses the datagram
type with the close-on-exec flag OR-ed into the type argument of the
creation call itself, the UDP-Lite protocol number, and the domain equal
to the encoded address's family tag (`AF_INET` for IPv4, `AF_INET6` for
IPv6); moreover `try_bind` consults the `socket(2)` oracle only at that
one argument triple, so no separate flag-setting step exists. -/
theorem socket_creation_flags (addr : SocketAddr)
    (socketSys1 socketSys2 : SocketCall → Int × IoError)
    (bindSys : List (Int × IoError)) :
    (socketCallOf addr).typ = SOCK_DGRAM ||| SOCK_CLOEXEC
  ∧ (socketCallOf addr).typ &&& SOCK_CLOEXEC = SOCK_CLOEXEC
  ∧ (socketCallOf addr).protocol = IPPROTO_UDPLITE
  ∧ (socketCallOf addr).domain = ss_family (rust_addr_to_sockaddr addr).1
  ∧ (∀ v4 : SocketAddrV4, (socketCallOf (SocketAddr.V4 v4)).domain = AF_INET)
  ∧ (∀ v6 : SocketAddrV6, (socketCallOf (SocketAddr.V6 v6)).domain = AF_INET6)
  ∧ (socketSys1 (socketCallOf addr) = socketSys2 (socketCallOf addr) →
      try_bind socketSys1 bindSys addr = try_bind socketSys2 bindSys addr) := by
  refine ⟨rfl, ?_, rfl, rfl, fun v4 => rfl, fun v6 => rfl, ?_⟩
  · show (SOCK_DGRAM ||| SOCK_CLOEXEC) &&& SOCK_CLOEXEC = SOCK_CLOEXEC
    decide
  · intro h
    simp only [socketCallOf] at h
    simp only [try_bind]
    rw [h]

/-- Witness for `socket_creation_flags` at `127.0.0.1:53` with an OS
oracle that yields descriptor `3`. -/
theorem socket_creation_flags_witness :
    (socketCallOf (SocketAddr.V4 ⟨127, 0, 0, 1, 53⟩)).typ = SOCK_DGRAM ||| SOCK_CLOEXEC
  ∧ (socketCallOf (SocketAddr.V4 ⟨127, 0, 0, 1, 53⟩)).domain = AF_INET
  ∧ try_bind (fun _ => (3, ⟨ErrorKind.other, "o"⟩)) [((0 : Int), ⟨ErrorKind.other, "o"⟩)]
        (SocketAddr.V4 ⟨127, 0, 0, 1, 53⟩)
      = try_bind (fun _ => (3, ⟨ErrorKind.other, "o"⟩)) [((0 : Int), ⟨ErrorKind.other, "o"⟩)]
        (SocketAddr.V4 ⟨127, 0, 0, 1, 53⟩) := by
  obtain ⟨h1, _, _, _, h5, _, h7⟩ := socket_creation_flags
    (SocketAddr.V4 ⟨127, 0, 0, 1, 53⟩)
    (fun _ => (3, ⟨ErrorKind.other, "o"⟩)) (fun _ => (3, ⟨ErrorKind.other, "o"⟩))
    [((0 : Int), ⟨ErrorKind.other, "o"⟩)]
  exact ⟨h1, h5 ⟨127, 0, 0, 1, 53⟩, h7 rfl⟩

/-- Claim C8: the address encoder is total, and for a well-formed address:
an IPv4 input fills family tag `AF_INET`, the port bytes in network byte
order and the four address bytes, returning the size of `sockaddr_in`; an
IPv6 input fills family tag `AF_INET6`, the port bytes in network byte
order, flow-info, the sixteen address bytes and scope-id, returning the
size of `sockaddr_in6`. -/
theorem rust_addr_to_sockaddr_spec :
    (∀ v4 : SocketAddrV4, v4.a < 256 → v4.b < 256 → v4.c < 256 → v4.d < 256 →
       v4.port < 65536 →
       rust_addr_to_sockaddr (SocketAddr.V4 v4)
         = (sockaddr_storage.in4
             ⟨AF_INET, [v4.port / 256, v4.port % 256], [v4.a, v4.b, v4.c, v4.d]⟩,
            sizeof_sockaddr_in))
  ∧ (∀ v6 : SocketAddrV6, v6.port < 65536 →
       rust_addr_to_sockaddr (SocketAddr.V6 v6)
         = (sockaddr_storage.in6
             ⟨AF_INET6, [v6.port / 256, v6.port % 256], v6.flowinfo, v6.octets,
              v6.scope_id⟩,
            sizeof_sockaddr_in6)) := by
  constructor
  · intro v4 ha hb hc hd hp
    have h1 : v4.port / 256 % 256 = v4.port / 256 := by omega
    have h2 : (v4.a * 16777216 + v4.b * 65536 + v4.c * 256 + v4.d) / 16777216 % 256
        = v4.a := by omega
    have h3 : (v4.a * 16777216 + v4.b * 65536 + v4.c * 256 + v4.d) / 65536 % 256
        = v4.b := by omega
    have h4 : (v4.a * 16777216 + v4.b * 65536 + v4.c * 256 + v4.d) / 256 % 256
        = v4.c := by omega
    have h5 : (v4.a * 16777216 + v4.b * 65536 + v4.c * 256 + v4.d) % 256
        = v4.d := by omega
    simp only [rust_addr_to_sockaddr, be16, be32, u32_from_ipv4]
    rw [h1, h2, h3, h4, h5]
  · intro v6 hp
    have h1 : v6.port / 256 % 256 = v6.port / 256 := by omega
    simp only [rust_addr_to_sockaddr, be16]
    rw [h1]

/-- Witness for `rust_addr_to_sockaddr_spec` at `192.168.0.1:8080` and
`[::1]:443` with flow-info `5` and scope-id `7`. -/
theorem rust_addr_to_sockaddr_spec_witness :
    rust_addr_to_sockaddr (SocketAddr.V4 ⟨192, 168, 0, 1, 8080⟩)
      = (sockaddr_storage.in4
          ⟨AF_INET, [8080 / 256, 8080 % 256], [192, 168, 0, 1]⟩,
         sizeof_sockaddr_in)
  ∧ rust_addr_to_sockaddr
        (SocketAddr.V6 ⟨[0, 0, 0, 0, 0, 0, 0, 0, 0, 0, 0, 0, 0, 0, 0, 1], 443, 5, 7⟩)
      = (sockaddr_storage.in6
          ⟨AF_INET6, [443 / 256, 443 % 256], 5,
           [0, 0, 0, 0, 0, 0, 0, 0, 0, 0, 0, 0, 0, 0, 0, 1], 7⟩,
         sizeof_sockaddr_in6) :=
  ⟨rust_addr_to_sockaddr_spec.1 ⟨192, 168, 0, 1, 8080⟩
     (by decide) (by decide) (by decide) (by decide) (by decide),
   rust_addr_to_sockaddr_spec.2 ⟨[0, 0, 0, 0, 0, 0, 0, 0, 0, 0, 0, 0, 0, 0, 0, 1], 443, 5, 7⟩
     (by decide)⟩

/-- Claim C9: on a valid descriptor, `set_cloexec` is idempotent — calling
it twice with the same flag succeeds both times, the second call leaves
the descriptor state exactly as it was after the first, and that state has
the close-on-exec flag equal to the requested value. -/
theorem set_cloexec_idempotent (st : FdState) (close_on_exec : Bool)
    (e1 e2 : IoError) (h : st.valid = true) :
    (UdpLiteSocket.set_cloexec st close_on_exec e1).1 = Except.ok ()
  ∧ (UdpLiteSocket.set_cloexec
       (UdpLiteSocket.set_cloexec st close_on_exec e1).2 close_on_exec e2).1
      = Except.ok ()
  ∧ (UdpLiteSocket.set_cloexec
       (UdpLiteSocket.set_cloexec st close_on_exec e1).2 close_on_exec e2).2
      = (UdpLiteSocket.set_cloexec st close_on_exec e1).2
  ∧ (UdpLiteSocket.set_cloexec st close_on_exec e1).2.cloexec = close_on_exec := by
  obtain ⟨v, c⟩ := st
  cases v with
  | false => exact Bool.noConfusion h
  | true => cases close_on_exec <;> simp [UdpLiteSocket.set_cloexec, ioctlSys]

/-- Witness for `set_cloexec_idempotent`: enabling close-on-exec twice on
a valid descriptor whose flag starts cleared. -/
theorem set_cloexec_idempotent_witness :
    (UdpLiteSocket.set_cloexec ⟨true, false⟩ true ⟨ErrorKind.other, "a"⟩).1
      = Except.ok ()
  ∧ (UdpLiteSocket.set_cloexec
       (UdpLiteSocket.set_cloexec ⟨true, false⟩ true ⟨ErrorKind.other, "a"⟩).2
       true ⟨ErrorKind.other, "b"⟩).1 = Except.ok ()
  ∧ (UdpLiteSocket.set_cloexec
       (UdpLiteSocket.set_cloexec ⟨true, false⟩ true ⟨ErrorKind.other, "a"⟩).2
       true ⟨ErrorKind.other, "b"⟩).2
      = (UdpLiteSocket.set_cloexec ⟨true, false⟩ true ⟨ErrorKind.other, "a"⟩).2
  ∧ (UdpLiteSocket.set_cloexec ⟨true, false⟩ true ⟨ErrorKind.other, "a"⟩).2.cloexec
      = true :=
  set_cloexec_idempotent ⟨true, false⟩ true ⟨ErrorKind.other, "a"⟩
    ⟨ErrorKind.other, "b"⟩ rfl

end UdpLite
